import Mathlib

/-!
Shallow embedding of the configuration validators of the kurdemy
project scaffolder.

The repository contains two generations of the validator:
* the current one (`src/lib/validator.js`), whose configuration has the
  fields `frontend`, `packageManager`, `trpc`, `auth`, `tailwind`;
* a legacy one (`src/unnamed/part_001`), whose configuration additionally
  has `database` and `orm` fields and two extra checks for them.
Both generations contain a textually identical `validateProjectName`,
embedded here once.

JavaScript values supplied for configuration fields may have any runtime
type, so fields are modelled by `JSVal` below.  Machinery that the
validators rely on — truthiness, `typeof`, `===` against a string
literal, `Array.prototype.includes` — is modelled explicitly.
-/

/-- A JavaScript runtime value, as far as the validators can observe it.
`num` carries an integer (no claim depends on non-integral numbers) and
`obj` stands for any object value (truthy, `typeof` is not `boolean` nor
`string`).  `undef` is `undefined`; it is also the value read from an
absent object property. -/
inductive JSVal where
  | str : String → JSVal
  | bool : Bool → JSVal
  | num : Int → JSVal
  | null : JSVal
  | undef : JSVal
  | obj : JSVal
deriving DecidableEq, Repr

/-- JavaScript truthiness: `false`, `0`, the empty string, `null` and
`undefined` are falsy; every object is truthy. -/
def truthy : JSVal → Bool
  | .str s => s.length != 0
  | .bool b => b
  | .num n => n != 0
  | .null => false
  | .undef => false
  | .obj => true

/-- `typeof v === 'boolean'`. -/
def typeofBoolean : JSVal → Bool
  | .bool _ => true
  | _ => false

/-- `typeof v === 'string'`. -/
def typeofString : JSVal → Bool
  | .str _ => true
  | _ => false

/-- Strict equality `v === s` against a string literal: true exactly when
`v` is a string with the same characters. -/
def eqStr (v : JSVal) (s : String) : Bool :=
  match v with
  | .str t => t == s
  | _ => false

/-- `['a', 'b', ...].includes(v)`: `Array.prototype.includes` compares each
element with strict equality (SameValueZero coincides with `===` here). -/
def jsIncludes (choices : List String) (v : JSVal) : Bool :=
  choices.any (fun s => eqStr v s)

/-- The value read from `v` when interpolating a template literal is only
needed for strings in this code; non-string cases are unreachable there. -/
def strVal : JSVal → String
  | .str s => s
  | _ => ""

/-- Result shape of `validateOptions`: `error` is `errors[0]` or `null`
(the field is always present, so `Option` with `none` for `null` is
faithful). -/
structure ValidationResult where
  valid : Bool
  errors : List String
  error : Option String
deriving DecidableEq, Repr

/-- Configuration record of the current generation
(`src/lib/validator.js`).  Each field holds an arbitrary runtime value;
an absent property reads as `JSVal.undef`. -/
structure Config where
  frontend : JSVal
  packageManager : JSVal
  trpc : JSVal
  auth : JSVal
  tailwind : JSVal
deriving DecidableEq, Repr

/-- Configuration record of the legacy generation (`src/unnamed/part_001`),
which still has `database` and `orm` fields. -/
structure LegacyConfig where
  frontend : JSVal
  database : JSVal
  orm : JSVal
  packageManager : JSVal
  trpc : JSVal
  auth : JSVal
  tailwind : JSVal
deriving DecidableEq, Repr

/-- `validateOptions` of `src/lib/validator.js` (current generation).
The error list is assembled in source order: frontend, package manager,
the three boolean options (`trpc`, `auth`, `tailwind`, unrolled from the
source's loop), then the auth/frontend compatibility rule.  No operation
in the JavaScript body can throw on a record input (property reads,
`includes`, `typeof` and truthiness tests are total), so the embedding is
a total function. -/
def validateOptions (config : Config) : ValidationResult :=
  let errors :=
    (if !jsIncludes ["nextjs", "react"] config.frontend then
      ["Invalid frontend choice. Must be \"nextjs\" or \"react\"."] else []) ++
    (if !jsIncludes ["npm", "yarn", "pnpm"] config.packageManager then
      ["Invalid package manager. Must be \"npm\", \"yarn\", or \"pnpm\"."] else []) ++
    (if !typeofBoolean config.trpc then ["trpc must be a boolean value."] else []) ++
    (if !typeofBoolean config.auth then ["auth must be a boolean value."] else []) ++
    (if !typeofBoolean config.tailwind then ["tailwind must be a boolean value."] else []) ++
    (if truthy config.auth && !eqStr config.frontend "nextjs" then
      ["NextAuth.js requires Next.js as the frontend framework."] else [])
  { valid := errors.isEmpty
    errors := errors
    error := errors.head? }

/-- `validateOptions` of `src/unnamed/part_001` (legacy generation).
Source order: frontend, database, orm, package manager, the three boolean
options, the auth/frontend rule, the orm/database rule.  The tRPC/backend
block in the source is an empty placeholder (a condition with no body)
and contributes nothing observable. -/
def validateOptionsLegacy (config : LegacyConfig) : ValidationResult :=
  let errors :=
    (if !jsIncludes ["nextjs", "react"] config.frontend then
      ["Invalid frontend choice. Must be \"nextjs\" or \"react\"."] else []) ++
    (if !jsIncludes ["postgresql", "mysql", "sqlite", "sqlserver"] config.database then
      ["Invalid database choice. Must be one of: postgresql, mysql, sqlite, sqlserver."] else []) ++
    (if !jsIncludes ["prisma", "drizzle"] config.orm then
      ["Invalid ORM choice. Must be \"prisma\" or \"drizzle\"."] else []) ++
    (if !jsIncludes ["npm", "yarn", "pnpm"] config.packageManager then
      ["Invalid package manager. Must be \"npm\", \"yarn\", or \"pnpm\"."] else []) ++
    (if !typeofBoolean config.trpc then ["trpc must be a boolean value."] else []) ++
    (if !typeofBoolean config.auth then ["auth must be a boolean value."] else []) ++
    (if !typeofBoolean config.tailwind then ["tailwind must be a boolean value."] else []) ++
    (if truthy config.auth && !eqStr config.frontend "nextjs" then
      ["NextAuth.js requires Next.js as the frontend framework."] else []) ++
    (if eqStr config.orm "drizzle" && eqStr config.database "sqlserver" then
      ["Drizzle ORM does not fully support SQL Server yet. Please use Prisma for SQL Server."] else [])
  { valid := errors.isEmpty
    errors := errors
    error := errors.head? }

/-- Result shape of `validateProjectName`.  The failure branches return
`{ valid: false, error: <string> }`; the success branch returns
`{ valid: true }` with no `error` property at all, so reading `error`
there yields `undefined` — hence the field is a `JSVal`, `JSVal.undef`
for the success branch. -/
structure NameValidationResult where
  valid : Bool
  error : JSVal
deriving DecidableEq, Repr

/-- One character of the class `[a-z0-9_.-]` under the `i` flag: ASCII
letters of either case, ASCII digits, underscore, dot, hyphen. -/
def nameChar (c : Char) : Bool :=
  ('a' ≤ c && c ≤ 'z') || ('A' ≤ c && c ≤ 'Z') || ('0' ≤ c && c ≤ '9') ||
    c == '_' || c == '.' || c == '-'

/-- The test `/^[a-z0-9_.-]+$/i.test(s)`: the whole string consists of
allowed characters and is non-empty (the `+`). -/
def nameRegexTest (s : String) : Bool :=
  s.length != 0 && s.toList.all nameChar

/-- The fixed reserved-name list of `validateProjectName`. -/
def reservedNames : List String :=
  ["node_modules", "package.json", "package-lock.json", "yarn.lock",
   "pnpm-lock.yaml", ".git", ".env", "src", "dist", "build"]

/-- `name.length` — throws (TypeError) unless the receiver is a string.
In this code the type guard always runs first, but the embedding keeps
the fallibility explicit so that absence of exceptions is provable. -/
def jsLength : JSVal → Except String Nat
  | .str s => Except.ok s.length
  | _ => Except.error "TypeError"

/-- `/^[a-z0-9_.-]+$/i.test(name)` — the regex coerces a non-string, but
this embedding flags a non-string receiver like the other helpers; the
guard makes the case unreachable. -/
def jsNamePatternTest : JSVal → Except String Bool
  | .str s => Except.ok (nameRegexTest s)
  | _ => Except.error "TypeError"

/-- `s.startsWith(p)`: `p` is a prefix of `s`, character by character
(stated structurally on the character lists, which is what the JS method
tests). -/
def strStartsWith (s p : String) : Bool :=
  p.data.isPrefixOf s.data

/-- `s.toLowerCase()`, lowering each character (`Char.toLower` lowers
exactly the ASCII uppercase letters; every string reaching this call in
the validator has passed the ASCII character-class test, on which this
agrees with the Unicode-aware JS method). -/
def strToLower (s : String) : String :=
  String.mk (s.data.map Char.toLower)

/-- `name.startsWith(p)` — string method, fallible on a non-string. -/
def jsStartsWith (v : JSVal) (p : String) : Except String Bool :=
  match v with
  | .str s => Except.ok (strStartsWith s p)
  | _ => Except.error "TypeError"

/-- `name.toLowerCase()` — string method, fallible on a non-string. -/
def jsToLower : JSVal → Except String String
  | .str s => Except.ok (strToLower s)
  | _ => Except.error "TypeError"

/-- `validateProjectName` (textually identical in `src/lib/validator.js`
and `src/unnamed/part_001`).  Checks run in source order and return on
the first failure: the falsiness/type guard, the two length checks, the
character-class check, the leading-character check, the case-insensitive
reserved-name check.  Note the guard `!name` already rejects the empty
string (it is falsy), so the `name.length < 1` branch is unreachable. -/
def validateProjectName (name : JSVal) : Except String NameValidationResult :=
  if !truthy name || !typeofString name then
    Except.ok { valid := false, error := .str "Project name is required and must be a string." }
  else
    (jsLength name).bind fun len =>
    if len < 1 then
      Except.ok { valid := false, error := .str "Project name cannot be empty." }
    else if len > 214 then
      Except.ok { valid := false, error := .str "Project name is too long (max 214 characters)." }
    else
      (jsNamePatternTest name).bind fun patternOk =>
      if !patternOk then
        Except.ok
          { valid := false
            error := .str "Project name can only contain letters, numbers, hyphens, underscores, and dots." }
      else
        (jsStartsWith name ".").bind fun startsDot =>
        (jsStartsWith name "-").bind fun startsHyphen =>
        if startsDot || startsHyphen then
          Except.ok { valid := false, error := .str "Project name cannot start with a dot or hyphen." }
        else
          (jsToLower name).bind fun lowered =>
          if reservedNames.contains lowered then
            Except.ok
              { valid := false
                error := .str ("\"" ++ strVal name ++ "\" is a reserved name and cannot be used as a project name.") }
          else
            Except.ok { valid := true, error := .undef }

/-! ### Helper lemmas -/

theorem mem_if_singleton {b : Bool} {a m : String} :
    a ∈ (if b then [m] else []) ↔ b = true ∧ a = m := by
  cases b <;> simp

theorem typeofBoolean_eq {v : JSVal} (h : typeofBoolean v = true) :
    ∃ b, v = JSVal.bool b := by
  cases v <;> simp [typeofBoolean] at h ⊢

theorem string_length_eq_zero {s : String} : s.length = 0 ↔ s = "" := by
  cases s with
  | mk data =>
    rw [String.ext_iff]
    simp [String.length]

/-! ### Claims about `validateOptions` -/

/-- C1: a configuration whose enumerated fields (`frontend`,
`packageManager`, and in the legacy schema also `database` and `orm`)
hold allowed values, whose `trpc`/`auth`/`tailwind` are strict booleans,
and which violates no cross-field rule (auth requires the `nextjs`
frontend; legacy: `drizzle` is incompatible with `sqlserver`), is
accepted by `validateOptions` with `valid = true` and an empty error
list, in both generations of the validator. -/
theorem validateOptions_accepts_valid_configs
    (c : Config) (l : LegacyConfig)
    (hf : jsIncludes ["nextjs", "react"] c.frontend = true)
    (hp : jsIncludes ["npm", "yarn", "pnpm"] c.packageManager = true)
    (ht : typeofBoolean c.trpc = true)
    (ha : typeofBoolean c.auth = true)
    (hw : typeofBoolean c.tailwind = true)
    (hcompat : c.auth = JSVal.bool true → c.frontend = JSVal.str "nextjs")
    (lf : jsIncludes ["nextjs", "react"] l.frontend = true)
    (ld : jsIncludes ["postgresql", "mysql", "sqlite", "sqlserver"] l.database = true)
    (lo : jsIncludes ["prisma", "drizzle"] l.orm = true)
    (lp : jsIncludes ["npm", "yarn", "pnpm"] l.packageManager = true)
    (lt : typeofBoolean l.trpc = true)
    (la : typeofBoolean l.auth = true)
    (lw : typeofBoolean l.tailwind = true)
    (lcompat : l.auth = JSVal.bool true → l.frontend = JSVal.str "nextjs")
    (ldrizzle : ¬(l.orm = JSVal.str "drizzle" ∧ l.database = JSVal.str "sqlserver")) :
    validateOptions c = { valid := true, errors := [], error := none } ∧
    validateOptionsLegacy l = { valid := true, errors := [], error := none } := by
  have hauth : (truthy c.auth && !eqStr c.frontend "nextjs") = false := by
    obtain ⟨b, hb⟩ := typeofBoolean_eq ha
    cases b with
    | false => rw [hb]; rfl
    | true => rw [hb, hcompat hb]; rfl
  have lauth : (truthy l.auth && !eqStr l.frontend "nextjs") = false := by
    obtain ⟨b, hb⟩ := typeofBoolean_eq la
    cases b with
    | false => rw [hb]; rfl
    | true => rw [hb, lcompat hb]; rfl
  have ldriz : (eqStr l.orm "drizzle" && eqStr l.database "sqlserver") = false := by
    rcases ho : eqStr l.orm "drizzle" with _ | _
    · rfl
    · rcases hd : eqStr l.database "sqlserver" with _ | _
      · rfl
      · exfalso
        apply ldrizzle
        constructor
        · cases hv : l.orm <;> simp_all [eqStr]
        · cases hv : l.database <;> simp_all [eqStr]
  constructor
  · simp [validateOptions, hf, hp, ht, ha, hw, hauth]
  · simp [validateOptionsLegacy, lf, ld, lo, lp, lt, la, lw, lauth, ldriz]

theorem validateOptions_accepts_valid_configs_witness :
    validateOptions
        { frontend := JSVal.str "nextjs", packageManager := JSVal.str "npm",
          trpc := JSVal.bool true, auth := JSVal.bool true, tailwind := JSVal.bool true } =
      { valid := true, errors := [], error := none } ∧
    validateOptionsLegacy
        { frontend := JSVal.str "nextjs", database := JSVal.str "postgresql",
          orm := JSVal.str "prisma", packageManager := JSVal.str "npm",
          trpc := JSVal.bool false, auth := JSVal.bool false, tailwind := JSVal.bool false } =
      { valid := true, errors := [], error := none } :=
  validateOptions_accepts_valid_configs _ _
    (by decide) (by decide) (by decide) (by decide) (by decide) (by decide)
    (by decide) (by decide) (by decide) (by decide) (by decide) (by decide)
    (by decide) (by decide) (by decide)

theorem validateOptions_valid_eq_isEmpty (c : Config) :
    (validateOptions c).valid = (validateOptions c).errors.isEmpty := rfl

theorem validateOptions_error_eq_head (c : Config) :
    (validateOptions c).error = (validateOptions c).errors.head? := rfl

theorem validateOptionsLegacy_valid_eq_isEmpty (l : LegacyConfig) :
    (validateOptionsLegacy l).valid = (validateOptionsLegacy l).errors.isEmpty := rfl

theorem validateOptionsLegacy_error_eq_head (l : LegacyConfig) :
    (validateOptionsLegacy l).error = (validateOptionsLegacy l).errors.head? := rfl

/-- C2: in both generations, a configuration with `auth = true` (the
strict boolean) and `frontend = 'react'` always receives the message
`NextAuth.js requires Next.js as the frontend framework.` in its error
list, whatever the other fields hold; conversely, when `auth` is the
boolean `false` or `frontend` is `'nextjs'`, that message never
appears. -/
theorem validateOptions_auth_react_error :
    (∀ c : Config, c.auth = JSVal.bool true → c.frontend = JSVal.str "react" →
      "NextAuth.js requires Next.js as the frontend framework." ∈ (validateOptions c).errors) ∧
    (∀ c : Config, c.auth = JSVal.bool false ∨ c.frontend = JSVal.str "nextjs" →
      "NextAuth.js requires Next.js as the frontend framework." ∉ (validateOptions c).errors) ∧
    (∀ l : LegacyConfig, l.auth = JSVal.bool true → l.frontend = JSVal.str "react" →
      "NextAuth.js requires Next.js as the frontend framework." ∈ (validateOptionsLegacy l).errors) ∧
    (∀ l : LegacyConfig, l.auth = JSVal.bool false ∨ l.frontend = JSVal.str "nextjs" →
      "NextAuth.js requires Next.js as the frontend framework." ∉ (validateOptionsLegacy l).errors) := by
  refine ⟨?_, ?_, ?_, ?_⟩
  · intro c hb hf
    simp [validateOptions, hb, hf, truthy, eqStr, List.mem_append]
  · intro c h
    rcases h with hb | hf
    · simp [validateOptions, hb, truthy, List.mem_append, mem_if_singleton]
    · simp [validateOptions, hf, eqStr, List.mem_append, mem_if_singleton]
  · intro l hb hf
    simp [validateOptionsLegacy, hb, hf, truthy, eqStr, List.mem_append]
  · intro l h
    rcases h with hb | hf
    · simp [validateOptionsLegacy, hb, truthy, List.mem_append, mem_if_singleton]
    · simp [validateOptionsLegacy, hf, eqStr, List.mem_append, mem_if_singleton]

theorem validateOptions_auth_react_error_witness :
    ("NextAuth.js requires Next.js as the frontend framework." ∈
      (validateOptions
        { frontend := JSVal.str "react", packageManager := JSVal.str "npm",
          trpc := JSVal.bool false, auth := JSVal.bool true, tailwind := JSVal.bool false }).errors) ∧
    ("NextAuth.js requires Next.js as the frontend framework." ∉
      (validateOptions
        { frontend := JSVal.str "nextjs", packageManager := JSVal.str "npm",
          trpc := JSVal.bool false, auth := JSVal.bool true, tailwind := JSVal.bool false }).errors) ∧
    ("NextAuth.js requires Next.js as the frontend framework." ∈
      (validateOptionsLegacy
        { frontend := JSVal.str "react", database := JSVal.str "postgresql",
          orm := JSVal.str "prisma", packageManager := JSVal.str "npm",
          trpc := JSVal.bool false, auth := JSVal.bool true, tailwind := JSVal.bool false }).errors) ∧
    ("NextAuth.js requires Next.js as the frontend framework." ∉
      (validateOptionsLegacy
        { frontend := JSVal.str "react", database := JSVal.str "postgresql",
          orm := JSVal.str "prisma", packageManager := JSVal.str "npm",
          trpc := JSVal.bool false, auth := JSVal.bool false, tailwind := JSVal.bool false }).errors) :=
  ⟨validateOptions_auth_react_error.1 _ rfl rfl,
   validateOptions_auth_react_error.2.1 _ (Or.inr rfl),
   validateOptions_auth_react_error.2.2.1 _ rfl rfl,
   validateOptions_auth_react_error.2.2.2 _ (Or.inl rfl)⟩

/-- C3: in the legacy validator, every configuration with
`orm = 'drizzle'` and `database = 'sqlserver'` is rejected
(`valid = false`) with the Drizzle/SQL Server incompatibility message in
its error list; in particular the concrete configuration from the spec's
scenario 3 is rejected with exactly that error. -/
theorem validateOptionsLegacy_drizzle_sqlserver (l : LegacyConfig)
    (ho : l.orm = JSVal.str "drizzle") (hd : l.database = JSVal.str "sqlserver") :
    (validateOptionsLegacy l).valid = false ∧
    "Drizzle ORM does not fully support SQL Server yet. Please use Prisma for SQL Server." ∈
      (validateOptionsLegacy l).errors ∧
    validateOptionsLegacy
        { frontend := JSVal.str "nextjs", database := JSVal.str "sqlserver",
          orm := JSVal.str "drizzle", packageManager := JSVal.str "yarn",
          trpc := JSVal.bool false, auth := JSVal.bool false, tailwind := JSVal.bool false } =
      { valid := false
        errors := ["Drizzle ORM does not fully support SQL Server yet. Please use Prisma for SQL Server."]
        error := some "Drizzle ORM does not fully support SQL Server yet. Please use Prisma for SQL Server." } := by
  have hm : "Drizzle ORM does not fully support SQL Server yet. Please use Prisma for SQL Server." ∈
      (validateOptionsLegacy l).errors := by
    simp [validateOptionsLegacy, ho, hd, eqStr, List.mem_append]
  refine ⟨?_, hm, by decide⟩
  rw [validateOptionsLegacy_valid_eq_isEmpty]
  rcases hE : (validateOptionsLegacy l).errors with _ | ⟨a, t⟩
  · rw [hE] at hm
    cases hm
  · rfl

theorem validateOptionsLegacy_drizzle_sqlserver_witness :
    (validateOptionsLegacy
        { frontend := JSVal.str "nextjs", database := JSVal.str "sqlserver",
          orm := JSVal.str "drizzle", packageManager := JSVal.str "yarn",
          trpc := JSVal.bool false, auth := JSVal.bool false, tailwind := JSVal.bool false }).valid
      = false :=
  (validateOptionsLegacy_drizzle_sqlserver _ rfl rfl).1

/-- C4 counterexample: the configuration `frontend = 'angular'`,
`packageManager = 'npm'`, `trpc = false`, `auth = true`,
`tailwind = false` has exactly one field outside its documented domain
(`frontend`), yet `validateOptions` returns two errors, because the
auth/frontend compatibility rule also fires (`auth` is `true` and
`frontend` is not `'nextjs'`).  So a sole domain violation does not
guarantee a single error message. -/
theorem validateOptions_single_violation_counterexample :
    jsIncludes ["nextjs", "react"] (JSVal.str "angular") = false ∧
    jsIncludes ["npm", "yarn", "pnpm"] (JSVal.str "npm") = true ∧
    typeofBoolean (JSVal.bool false) = true ∧
    typeofBoolean (JSVal.bool true) = true ∧
    (validateOptions
        { frontend := JSVal.str "angular", packageManager := JSVal.str "npm",
          trpc := JSVal.bool false, auth := JSVal.bool true, tailwind := JSVal.bool false }).errors =
      ["Invalid frontend choice. Must be \"nextjs\" or \"react\".",
       "NextAuth.js requires Next.js as the frontend framework."] ∧
    (validateOptions
        { frontend := JSVal.str "angular", packageManager := JSVal.str "npm",
          trpc := JSVal.bool false, auth := JSVal.bool true, tailwind := JSVal.bool false }).errors.length ≠ 1 := by
  decide

/-- C4 amended: if exactly one field lies outside its documented domain,
all other fields hold documented values, and additionally neither
cross-field rule fires (the auth/frontend rule; in the legacy schema also
the drizzle/sqlserver rule), then `validateOptions` returns exactly one
error, namely the fixed domain message of the offending field (whose text
names that field).  Stated for each possible offending field in both
generations. -/
theorem validateOptions_single_violation_amended
    (c : Config) (l : LegacyConfig)
    (hcompat : (truthy c.auth && !eqStr c.frontend "nextjs") = false)
    (lcompat : (truthy l.auth && !eqStr l.frontend "nextjs") = false)
    (ldriz : (eqStr l.orm "drizzle" && eqStr l.database "sqlserver") = false) :
    (jsIncludes ["nextjs", "react"] c.frontend = false →
      jsIncludes ["npm", "yarn", "pnpm"] c.packageManager = true →
      typeofBoolean c.trpc = true → typeofBoolean c.auth = true → typeofBoolean c.tailwind = true →
      (validateOptions c).errors = ["Invalid frontend choice. Must be \"nextjs\" or \"react\"."]) ∧
    (jsIncludes ["nextjs", "react"] c.frontend = true →
      jsIncludes ["npm", "yarn", "pnpm"] c.packageManager = false →
      typeofBoolean c.trpc = true → typeofBoolean c.auth = true → typeofBoolean c.tailwind = true →
      (validateOptions c).errors = ["Invalid package manager. Must be \"npm\", \"yarn\", or \"pnpm\"."]) ∧
    (jsIncludes ["nextjs", "react"] c.frontend = true →
      jsIncludes ["npm", "yarn", "pnpm"] c.packageManager = true →
      typeofBoolean c.trpc = false → typeofBoolean c.auth = true → typeofBoolean c.tailwind = true →
      (validateOptions c).errors = ["trpc must be a boolean value."]) ∧
    (jsIncludes ["nextjs", "react"] c.frontend = true →
      jsIncludes ["npm", "yarn", "pnpm"] c.packageManager = true →
      typeofBoolean c.trpc = true → typeofBoolean c.auth = false → typeofBoolean c.tailwind = true →
      (validateOptions c).errors = ["auth must be a boolean value."]) ∧
    (jsIncludes ["nextjs", "react"] c.frontend = true →
      jsIncludes ["npm", "yarn", "pnpm"] c.packageManager = true →
      typeofBoolean c.trpc = true → typeofBoolean c.auth = true → typeofBoolean c.tailwind = false →
      (validateOptions c).errors = ["tailwind must be a boolean value."]) ∧
    (jsIncludes ["nextjs", "react"] l.frontend = false →
      jsIncludes ["postgresql", "mysql", "sqlite", "sqlserver"] l.database = true →
      jsIncludes ["prisma", "drizzle"] l.orm = true →
      jsIncludes ["npm", "yarn", "pnpm"] l.packageManager = true →
      typeofBoolean l.trpc = true → typeofBoolean l.auth = true → typeofBoolean l.tailwind = true →
      (validateOptionsLegacy l).errors = ["Invalid frontend choice. Must be \"nextjs\" or \"react\"."]) ∧
    (jsIncludes ["nextjs", "react"] l.frontend = true →
      jsIncludes ["postgresql", "mysql", "sqlite", "sqlserver"] l.database = false →
      jsIncludes ["prisma", "drizzle"] l.orm = true →
      jsIncludes ["npm", "yarn", "pnpm"] l.packageManager = true →
      typeofBoolean l.trpc = true → typeofBoolean l.auth = true → typeofBoolean l.tailwind = true →
      (validateOptionsLegacy l).errors =
        ["Invalid database choice. Must be one of: postgresql, mysql, sqlite, sqlserver."]) ∧
    (jsIncludes ["nextjs", "react"] l.frontend = true →
      jsIncludes ["postgresql", "mysql", "sqlite", "sqlserver"] l.database = true →
      jsIncludes ["prisma", "drizzle"] l.orm = false →
      jsIncludes ["npm", "yarn", "pnpm"] l.packageManager = true →
      typeofBoolean l.trpc = true → typeofBoolean l.auth = true → typeofBoolean l.tailwind = true →
      (validateOptionsLegacy l).errors = ["Invalid ORM choice. Must be \"prisma\" or \"drizzle\"."]) ∧
    (jsIncludes ["nextjs", "react"] l.frontend = true →
      jsIncludes ["postgresql", "mysql", "sqlite", "sqlserver"] l.database = true →
      jsIncludes ["prisma", "drizzle"] l.orm = true →
      jsIncludes ["npm", "yarn", "pnpm"] l.packageManager = false →
      typeofBoolean l.trpc = true → typeofBoolean l.auth = true → typeofBoolean l.tailwind = true →
      (validateOptionsLegacy l).errors = ["Invalid package manager. Must be \"npm\", \"yarn\", or \"pnpm\"."]) ∧
    (jsIncludes ["nextjs", "react"] l.frontend = true →
      jsIncludes ["postgresql", "mysql", "sqlite", "sqlserver"] l.database = true →
      jsIncludes ["prisma", "drizzle"] l.orm = true →
      jsIncludes ["npm", "yarn", "pnpm"] l.packageManager = true →
      typeofBoolean l.trpc = false → typeofBoolean l.auth = true → typeofBoolean l.tailwind = true →
      (validateOptionsLegacy l).errors = ["trpc must be a boolean value."]) ∧
    (jsIncludes ["nextjs", "react"] l.frontend = true →
      jsIncludes ["postgresql", "mysql", "sqlite", "sqlserver"] l.database = true →
      jsIncludes ["prisma", "drizzle"] l.orm = true →
      jsIncludes ["npm", "yarn", "pnpm"] l.packageManager = true →
      typeofBoolean l.trpc = true → typeofBoolean l.auth = false → typeofBoolean l.tailwind = true →
      (validateOptionsLegacy l).errors = ["auth must be a boolean value."]) ∧
    (jsIncludes ["nextjs", "react"] l.frontend = true →
      jsIncludes ["postgresql", "mysql", "sqlite", "sqlserver"] l.database = true →
      jsIncludes ["prisma", "drizzle"] l.orm = true →
      jsIncludes ["npm", "yarn", "pnpm"] l.packageManager = true →
      typeofBoolean l.trpc = true → typeofBoolean l.auth = true → typeofBoolean l.tailwind = false →
      (validateOptionsLegacy l).errors = ["tailwind must be a boolean value."]) := by
  refine ⟨?_, ?_, ?_, ?_, ?_, ?_, ?_, ?_, ?_, ?_, ?_, ?_⟩ <;>
    intro h1 h2 h3 h4 h5 <;>
    first
      | simp [validateOptions, h1, h2, h3, h4, h5, hcompat]
      | (intro h6 h7
         simp [validateOptionsLegacy, h1, h2, h3, h4, h5, h6, h7, lcompat, ldriz])

theorem validateOptions_single_violation_amended_witness :
    (validateOptions
        { frontend := JSVal.str "angular", packageManager := JSVal.str "npm",
          trpc := JSVal.bool false, auth := JSVal.bool false, tailwind := JSVal.bool false }).errors =
      ["Invalid frontend choice. Must be \"nextjs\" or \"react\"."] ∧
    (validateOptionsLegacy
        { frontend := JSVal.str "nextjs", database := JSVal.str "mongodb",
          orm := JSVal.str "prisma", packageManager := JSVal.str "npm",
          trpc := JSVal.bool false, auth := JSVal.bool false, tailwind := JSVal.bool false }).errors =
      ["Invalid database choice. Must be one of: postgresql, mysql, sqlite, sqlserver."] :=
  ⟨(validateOptions_single_violation_amended
        { frontend := JSVal.str "angular", packageManager := JSVal.str "npm",
          trpc := JSVal.bool false, auth := JSVal.bool false, tailwind := JSVal.bool false }
        { frontend := JSVal.str "nextjs", database := JSVal.str "mongodb",
          orm := JSVal.str "prisma", packageManager := JSVal.str "npm",
          trpc := JSVal.bool false, auth := JSVal.bool false, tailwind := JSVal.bool false }
        (by decide) (by decide) (by decide)).1
      (by decide) (by decide) (by decide) (by decide) (by decide),
   (validateOptions_single_violation_amended
        { frontend := JSVal.str "angular", packageManager := JSVal.str "npm",
          trpc := JSVal.bool false, auth := JSVal.bool false, tailwind := JSVal.bool false }
        { frontend := JSVal.str "nextjs", database := JSVal.str "mongodb",
          orm := JSVal.str "prisma", packageManager := JSVal.str "npm",
          trpc := JSVal.bool false, auth := JSVal.bool false, tailwind := JSVal.bool false }
        (by decide) (by decide) (by decide)).2.2.2.2.2.2.1
      (by decide) (by decide) (by decide) (by decide) (by decide) (by decide) (by decide)⟩

/-- C5: for every input configuration (both generations), the result of
`validateOptions` satisfies `valid = true` exactly when the error list is
empty, and the convenience field (`error` in the code, `firstError` in
the spec) is the first element of `errors` when that list is non-empty
and `null` when it is empty. -/
theorem validateOptions_result_shape :
    (∀ c : Config,
      ((validateOptions c).valid = true ↔ (validateOptions c).errors = []) ∧
      ((validateOptions c).errors = [] → (validateOptions c).error = none) ∧
      (∀ a t, (validateOptions c).errors = a :: t → (validateOptions c).error = some a)) ∧
    (∀ l : LegacyConfig,
      ((validateOptionsLegacy l).valid = true ↔ (validateOptionsLegacy l).errors = []) ∧
      ((validateOptionsLegacy l).errors = [] → (validateOptionsLegacy l).error = none) ∧
      (∀ a t, (validateOptionsLegacy l).errors = a :: t → (validateOptionsLegacy l).error = some a)) := by
  constructor
  · intro c
    refine ⟨?_, ?_, ?_⟩
    · rw [validateOptions_valid_eq_isEmpty]
      exact List.isEmpty_iff
    · intro h
      rw [validateOptions_error_eq_head, h]
      rfl
    · intro a t h
      rw [validateOptions_error_eq_head, h]
      rfl
  · intro l
    refine ⟨?_, ?_, ?_⟩
    · rw [validateOptionsLegacy_valid_eq_isEmpty]
      exact List.isEmpty_iff
    · intro h
      rw [validateOptionsLegacy_error_eq_head, h]
      rfl
    · intro a t h
      rw [validateOptionsLegacy_error_eq_head, h]
      rfl

theorem validateOptions_result_shape_witness :
    (validateOptions
        { frontend := JSVal.str "nextjs", packageManager := JSVal.str "npm",
          trpc := JSVal.bool false, auth := JSVal.bool false, tailwind := JSVal.bool false }).valid = true ∧
    (validateOptions
        { frontend := JSVal.str "angular", packageManager := JSVal.str "bower",
          trpc := JSVal.bool false, auth := JSVal.bool false, tailwind := JSVal.bool false }).error =
      some "Invalid frontend choice. Must be \"nextjs\" or \"react\"." ∧
    (validateOptionsLegacy
        { frontend := JSVal.str "nextjs", database := JSVal.str "sqlite",
          orm := JSVal.str "prisma", packageManager := JSVal.str "npm",
          trpc := JSVal.bool false, auth := JSVal.bool false, tailwind := JSVal.bool false }).valid = true ∧
    (validateOptionsLegacy
        { frontend := JSVal.str "nextjs", database := JSVal.str "sqlserver",
          orm := JSVal.str "drizzle", packageManager := JSVal.str "npm",
          trpc := JSVal.bool false, auth := JSVal.bool false, tailwind := JSVal.bool false }).error =
      some "Drizzle ORM does not fully support SQL Server yet. Please use Prisma for SQL Server." :=
  ⟨(validateOptions_result_shape.1 _).1.mpr (by decide),
   (validateOptions_result_shape.1 _).2.2 _
     ["Invalid package manager. Must be \"npm\", \"yarn\", or \"pnpm\"."] (by decide),
   (validateOptions_result_shape.2 _).1.mpr (by decide),
   (validateOptions_result_shape.2 _).2.2 _ [] (by decide)⟩


/-! ### Claims about `validateProjectName` -/

theorem validateProjectName_total (v : JSVal) :
    ∃ r : NameValidationResult, validateProjectName v = Except.ok r ∧
      (r.valid = true → r.error = JSVal.undef) ∧
      (r.valid = false → ∃ m : String, r.error = JSVal.str m) := by
  cases v with
  | str s =>
    simp only [validateProjectName, jsLength, jsNamePatternTest, jsStartsWith, jsToLower,
      Except.bind, truthy, typeofString]
    repeat
      first
        | exact ⟨_, rfl, by simp, fun h => ⟨_, rfl⟩⟩
        | exact ⟨_, rfl, fun h => rfl, by simp⟩
        | split
  | bool b =>
    refine ⟨{ valid := false, error := JSVal.str "Project name is required and must be a string." },
      ?_, by simp, fun h => ⟨_, rfl⟩⟩
    cases b <;> rfl
  | num n =>
    refine ⟨{ valid := false, error := JSVal.str "Project name is required and must be a string." },
      ?_, by simp, fun h => ⟨_, rfl⟩⟩
    simp [validateProjectName, truthy, typeofString]
  | null => exact ⟨_, rfl, by simp, fun h => ⟨_, rfl⟩⟩
  | undef => exact ⟨_, rfl, by simp, fun h => ⟨_, rfl⟩⟩
  | obj => exact ⟨_, rfl, by simp, fun h => ⟨_, rfl⟩⟩

theorem ne_reserved_message (a s : String) (ha : a.data.head? = some 'P') :
    a ≠ "\"" ++ s ++ "\" is a reserved name and cannot be used as a project name." := by
  intro h
  have h2 : ("\"" ++ s ++ "\" is a reserved name and cannot be used as a project name.").data.head? =
      some (Char.ofNat 34) := by
    simp [String.data_append, show ("\"" : String).data = [Char.ofNat 34] from rfl]
  rw [h, h2] at ha
  exact absurd ha (by decide)

/-- C6 counterexample: the empty string is rejected, but with the message
`Project name is required and must be a string.` — not with the dedicated
empty-name message `Project name cannot be empty.`.  The guard `!name`
already catches the empty string (it is falsy in JavaScript), so the
`name.length < 1` branch carrying the empty-name message is unreachable. -/
theorem validateProjectName_empty_string_counterexample :
    validateProjectName (JSVal.str "") =
      Except.ok { valid := false, error := JSVal.str "Project name is required and must be a string." } ∧
    "Project name is required and must be a string." ≠ "Project name cannot be empty." :=
  ⟨rfl, by decide⟩

/-- C6 amended: `validateProjectName` enforces the length bounds
`[1, 214]`: every 214-character name of allowed characters that does not
start with a dot or hyphen and is not reserved is accepted; every
215-character name is rejected with the length-specific message; and the
empty string is rejected with `Project name is required and must be a
string.` (the falsiness guard fires before the unreachable dedicated
empty-name branch). -/
theorem validateProjectName_length_bounds (s t : String)
    (h0 : s.length = 214) (hchars : s.toList.all nameChar = true)
    (hd : strStartsWith s "." = false) (hh : strStartsWith s "-" = false)
    (hres : reservedNames.contains (strToLower s) = false)
    (ht : t.length = 215) :
    validateProjectName (JSVal.str s) = Except.ok { valid := true, error := JSVal.undef } ∧
    validateProjectName (JSVal.str t) =
      Except.ok { valid := false, error := JSVal.str "Project name is too long (max 214 characters)." } ∧
    validateProjectName (JSVal.str "") =
      Except.ok { valid := false, error := JSVal.str "Project name is required and must be a string." } := by
  refine ⟨?_, ?_, rfl⟩
  · have hne : s.length ≠ 0 := by omega
    have hlt : ¬ s.length < 1 := by omega
    have hgt : ¬ s.length > 214 := by omega
    simp [validateProjectName, truthy, typeofString, jsLength, jsNamePatternTest, jsStartsWith,
      jsToLower, Except.bind, nameRegexTest, strVal, hne, hlt, hgt, hd, hh]
    simp_all
  · have hne : t.length ≠ 0 := by omega
    have hlt : ¬ t.length < 1 := by omega
    have hgt : t.length > 214 := by omega
    simp [validateProjectName, truthy, typeofString, jsLength, jsNamePatternTest, jsStartsWith,
      jsToLower, Except.bind, hne, hlt, hgt]

set_option maxRecDepth 4000 in
theorem validateProjectName_length_bounds_witness :
    validateProjectName (JSVal.str "aaaaaaaaaaaaaaaaaaaaaaaaaaaaaaaaaaaaaaaaaaaaaaaaaaaaaaaaaaaaaaaaaaaaaaaaaaaaaaaaaaaaaaaaaaaaaaaaaaaaaaaaaaaaaaaaaaaaaaaaaaaaaaaaaaaaaaaaaaaaaaaaaaaaaaaaaaaaaaaaaaaaaaaaaaaaaaaaaaaaaaaaaaaaaaaaaaaaaaaaaaaaaaaaaaaaaa") = Except.ok { valid := true, error := JSVal.undef } ∧
    validateProjectName (JSVal.str "aaaaaaaaaaaaaaaaaaaaaaaaaaaaaaaaaaaaaaaaaaaaaaaaaaaaaaaaaaaaaaaaaaaaaaaaaaaaaaaaaaaaaaaaaaaaaaaaaaaaaaaaaaaaaaaaaaaaaaaaaaaaaaaaaaaaaaaaaaaaaaaaaaaaaaaaaaaaaaaaaaaaaaaaaaaaaaaaaaaaaaaaaaaaaaaaaaaaaaaaaaaaaaaaaaaaaaa") =
      Except.ok { valid := false, error := JSVal.str "Project name is too long (max 214 characters)." } ∧
    validateProjectName (JSVal.str "") =
      Except.ok { valid := false, error := JSVal.str "Project name is required and must be a string." } :=
  validateProjectName_length_bounds "aaaaaaaaaaaaaaaaaaaaaaaaaaaaaaaaaaaaaaaaaaaaaaaaaaaaaaaaaaaaaaaaaaaaaaaaaaaaaaaaaaaaaaaaaaaaaaaaaaaaaaaaaaaaaaaaaaaaaaaaaaaaaaaaaaaaaaaaaaaaaaaaaaaaaaaaaaaaaaaaaaaaaaaaaaaaaaaaaaaaaaaaaaaaaaaaaaaaaaaaaaaaaaaaaaaaaa" "aaaaaaaaaaaaaaaaaaaaaaaaaaaaaaaaaaaaaaaaaaaaaaaaaaaaaaaaaaaaaaaaaaaaaaaaaaaaaaaaaaaaaaaaaaaaaaaaaaaaaaaaaaaaaaaaaaaaaaaaaaaaaaaaaaaaaaaaaaaaaaaaaaaaaaaaaaaaaaaaaaaaaaaaaaaaaaaaaaaaaaaaaaaaaaaaaaaaaaaaaaaaaaaaaaaaaaa"
    (by decide) (by decide) (by decide) (by decide) (by decide) (by decide)

/-- C7 counterexample: a name passing every rule yields `{ valid: true }`
with no `error` property, so reading `error` gives `undefined` — which is
distinct from `null`, the value the claim asserts. -/
theorem validateProjectName_error_undefined_counterexample :
    validateProjectName (JSVal.str "my-app") =
      Except.ok { valid := true, error := JSVal.undef } ∧
    JSVal.undef ≠ JSVal.null :=
  ⟨rfl, by decide⟩

/-- C7 amended: for every input, `validateProjectName` returns a record
`{ valid, error }` where on success `valid = true` and the `error`
property is absent (reads as `undefined`, not `null`), and on failure
`valid = false` with `error` a single message string (never a list). -/
theorem validateProjectName_result_shape (v : JSVal) :
    ∃ r : NameValidationResult, validateProjectName v = Except.ok r ∧
      (r.valid = true → r.error = JSVal.undef) ∧
      (r.valid = false → ∃ m : String, r.error = JSVal.str m) :=
  validateProjectName_total v

theorem validateProjectName_result_shape_witness :
    ∃ r : NameValidationResult, validateProjectName (JSVal.str "my-app") = Except.ok r ∧
      (r.valid = true → r.error = JSVal.undef) ∧
      (r.valid = false → ∃ m : String, r.error = JSVal.str m) :=
  validateProjectName_result_shape (JSVal.str "my-app")

/-- C8: the reserved-name check is case-insensitive: every string that
passes the earlier rules (length in `[1, 214]`, allowed characters, no
leading dot or hyphen) and whose lower-casing is in the reserved list is
rejected with the reserved-name message; in particular both `SRC` and
`src` are rejected. -/
theorem validateProjectName_reserved_case_insensitive (s : String)
    (h1 : 1 ≤ s.length) (h2 : s.length ≤ 214) (hchars : s.toList.all nameChar = true)
    (hd : strStartsWith s "." = false) (hh : strStartsWith s "-" = false)
    (hres : reservedNames.contains (strToLower s) = true) :
    validateProjectName (JSVal.str s) =
      Except.ok
        { valid := false
          error := JSVal.str ("\"" ++ s ++ "\" is a reserved name and cannot be used as a project name.") } ∧
    validateProjectName (JSVal.str "SRC") =
      Except.ok
        { valid := false
          error := JSVal.str "\"SRC\" is a reserved name and cannot be used as a project name." } ∧
    validateProjectName (JSVal.str "src") =
      Except.ok
        { valid := false
          error := JSVal.str "\"src\" is a reserved name and cannot be used as a project name." } := by
  refine ⟨?_, rfl, rfl⟩
  have hne : s.length ≠ 0 := by omega
  have hlt : ¬ s.length < 1 := by omega
  have hgt : ¬ s.length > 214 := by omega
  simp [validateProjectName, truthy, typeofString, jsLength, jsNamePatternTest, jsStartsWith,
    jsToLower, Except.bind, nameRegexTest, strVal, hne, hlt, hgt, hd, hh]
  simp_all

theorem validateProjectName_reserved_case_insensitive_witness :
    validateProjectName (JSVal.str "dist") =
      Except.ok
        { valid := false
          error := JSVal.str "\"dist\" is a reserved name and cannot be used as a project name." } :=
  (validateProjectName_reserved_case_insensitive "dist"
    (by decide) (by decide) (by decide) (by decide) (by decide) (by decide)).1

/-- C9: the validators never throw on expected invalid input.
`validateProjectName` is embedded in an exception monad — every string
method it calls (`length`, the regex test, `startsWith`, `toLowerCase`)
would raise a `TypeError` on a non-string receiver — and for every input
value (strings, booleans, numbers, `null`, `undefined`, objects) it
returns `ok` with a structured result: the leading type guard protects
every string-method call.  The two `validateOptions` embeddings are total
functions: no operation in their bodies (property reads on the
configuration record, `Array.prototype.includes`, `typeof`, truthiness
tests) can throw on any record input, so each returns a structured
result for every configuration record. -/
theorem validators_never_throw :
    (∀ v : JSVal, ∃ r : NameValidationResult, validateProjectName v = Except.ok r) ∧
    (∀ c : Config, ∃ r : ValidationResult, validateOptions c = r) ∧
    (∀ l : LegacyConfig, ∃ r : ValidationResult, validateOptionsLegacy l = r) :=
  ⟨fun v => (validateProjectName_total v).elim (fun r hr => ⟨r, hr.1⟩),
   fun c => ⟨validateOptions c, rfl⟩,
   fun l => ⟨validateOptionsLegacy l, rfl⟩⟩

/-- C10 counterexample: `.a b` begins with a dot, yet it is rejected with
the character-class message, not with the `cannot start with a dot or
hyphen` message — the character-class rule runs first.  So not every name
beginning with `.` or `-` receives the leading-character message. -/
theorem validateProjectName_leading_dot_counterexample :
    strStartsWith ".a b" "." = true ∧
    validateProjectName (JSVal.str ".a b") =
      Except.ok
        { valid := false
          error := JSVal.str "Project name can only contain letters, numbers, hyphens, underscores, and dots." } ∧
    "Project name can only contain letters, numbers, hyphens, underscores, and dots." ≠
      "Project name cannot start with a dot or hyphen." :=
  ⟨rfl, rfl, by decide⟩

/-- C10 amended: a name beginning with `.` or `-` is always rejected and
never with the reserved-name message (its rejection message is one of the
too-long, character-class or leading-character messages); when it also
passes the length and character-class rules it is rejected precisely with
the leading-character message.  In particular `.git` and `.env` are
rejected by the leading-character rule, so their entries in the reserved
list can never be the cause of a rejection. -/
theorem validateProjectName_leading_char_precedence (s : String)
    (h : (strStartsWith s "." || strStartsWith s "-") = true) :
    (∃ r : NameValidationResult, validateProjectName (JSVal.str s) = Except.ok r ∧
      r.valid = false ∧
      (r.error = JSVal.str "Project name is too long (max 214 characters)." ∨
       r.error = JSVal.str "Project name can only contain letters, numbers, hyphens, underscores, and dots." ∨
       r.error = JSVal.str "Project name cannot start with a dot or hyphen.") ∧
      r.error ≠ JSVal.str ("\"" ++ s ++ "\" is a reserved name and cannot be used as a project name.")) ∧
    (s.length ≤ 214 → s.toList.all nameChar = true →
      validateProjectName (JSVal.str s) =
        Except.ok { valid := false, error := JSVal.str "Project name cannot start with a dot or hyphen." }) ∧
    validateProjectName (JSVal.str ".git") =
      Except.ok { valid := false, error := JSVal.str "Project name cannot start with a dot or hyphen." } ∧
    validateProjectName (JSVal.str ".env") =
      Except.ok { valid := false, error := JSVal.str "Project name cannot start with a dot or hyphen." } := by
  have hne : s ≠ "" := by
    intro he
    rw [he] at h
    exact absurd h (by decide)
  have hlen : s.length ≠ 0 := fun h0 => hne (string_length_eq_zero.mp h0)
  have hlt : ¬ s.length < 1 := by omega
  have walk : s.length ≤ 214 → s.toList.all nameChar = true →
      validateProjectName (JSVal.str s) =
        Except.ok { valid := false, error := JSVal.str "Project name cannot start with a dot or hyphen." } := by
    intro hle hch
    have hgt : ¬ s.length > 214 := by omega
    simp [validateProjectName, truthy, typeofString, jsLength, jsNamePatternTest, jsStartsWith,
      jsToLower, Except.bind, nameRegexTest, hlen, hlt, hgt, h]
    simp_all
  refine ⟨?_, walk, rfl, rfl⟩
  by_cases hgt : s.length > 214
  · refine ⟨{ valid := false, error := JSVal.str "Project name is too long (max 214 characters)." },
      ?_, rfl, Or.inl rfl, ?_⟩
    · simp [validateProjectName, truthy, typeofString, jsLength, Except.bind, hlen, hlt, hgt]
    · intro heq
      exact ne_reserved_message "Project name is too long (max 214 characters)." s rfl (JSVal.str.inj heq)
  · by_cases hch : s.toList.all nameChar = true
    · refine ⟨{ valid := false, error := JSVal.str "Project name cannot start with a dot or hyphen." },
        walk (by omega) hch, rfl, Or.inr (Or.inr rfl), ?_⟩
      intro heq
      exact ne_reserved_message "Project name cannot start with a dot or hyphen." s rfl (JSVal.str.inj heq)
    · have hch2 : s.toList.all nameChar = false := by
        revert hch
        cases s.toList.all nameChar <;> simp
      have hgt2 : ¬ s.length > 214 := hgt
      refine ⟨{ valid := false
                error := JSVal.str "Project name can only contain letters, numbers, hyphens, underscores, and dots." },
        ?_, rfl, Or.inr (Or.inl rfl), ?_⟩
      · simp [validateProjectName, truthy, typeofString, jsLength, jsNamePatternTest, Except.bind,
          nameRegexTest, hlen, hlt, hgt2, hch2]
        simp_all
      · intro heq
        exact ne_reserved_message
          "Project name can only contain letters, numbers, hyphens, underscores, and dots." s rfl
          (JSVal.str.inj heq)

theorem validateProjectName_leading_char_precedence_witness :
    validateProjectName (JSVal.str ".git") =
      Except.ok { valid := false, error := JSVal.str "Project name cannot start with a dot or hyphen." } :=
  (validateProjectName_leading_char_precedence ".git" (by decide)).2.1 (by decide) (by decide)
